import Mathlib

/-!
Verification of the host-side debug-probe tool (`msp_dap_via_esp`):
a shallow embedding of its frame codec (`src/protocol.rs`), device
session register reads (`src/loader.rs`) and flash verifier
(`src/elf_reader.rs`), with theorems about the embedded definitions.

Bytes are modelled as `Nat` values below 256; machine-integer
truncation (`as u8`, `as u16`, `as u32`) is rendered with explicit
`% 2^w`.  Code that can panic (index out of bounds, integer underflow
or overflow in debug builds, explicit `panic!`) is modelled with
`Option`: `none` is a panic.
-/

/-! ## Frame codec: `src/protocol.rs` -/

deriving instance DecidableEq for Except

/-- The `SWDCommand` enum of `src/protocol.rs` (addresses and lengths
are `u32` in the source, byte vectors are `Vec<u8>`). -/
inductive SWDCommand where
  | halt
  | resume
  | readBytes (start_address length : Nat)
  | readWord (start_address : Nat)
  | readWords (start_address length : Nat)
  | write (write_address : Nat) (write_data : List Nat)
deriving DecidableEq

def HEADER : List Nat := [0xff, 0xf9]
def FOOTER : List Nat := [0xf5, 0xe7]
def MAX_DATA_LENGTH : Nat := 4096
def HALT_COMMAND : Nat := 0xc1
def RESUME_COMMAND : Nat := 0xc2
def READ_WORD : Nat := 0xc3
def READ_BYTES_COMMAND : Nat := 0xc6
def READ_WORDS_COMMAND : Nat := 0xc7
def WRITE_COMMAND : Nat := 0xc4
def ACK_OFFSET : Nat := 5
def HALT_ACK : Nat := 0xd1
def HALT_ERROR : Nat := 0xe1
def RESUME_ACK : Nat := 0xd1
def RESUME_ERROR : Nat := 0xe1
def READ_ACK : Nat := 0xd2
def READ_ERROR : Nat := 0xe3
def WRITE_ACK : Nat := 0xd1
def WRITE_ERROR : Nat := 0xe1
def WORD_SIZE : Nat := 4

/-- One inner iteration of `compute_crc`'s bit loop:
`crc = if (crc & 0x80) != 0 { (crc << 1) ^ 0x07 } else { crc << 1 }`
on a `u8` accumulator (the shift wraps modulo 256). -/
def crc8_round (crc : Nat) : Nat :=
  if crc &&& 0x80 ≠ 0 then (crc * 2 % 256) ^^^ 0x07 else crc * 2 % 256

/-- One byte step of `compute_crc`: `crc ^= data[i]` then 8 bit rounds. -/
def crc8_update (crc b : Nat) : Nat :=
  crc8_round^[8] (crc ^^^ b)

/-- The loop body of `ProtocolHandler::compute_crc` (`src/protocol.rs`
lines 54-63): accumulator starts at 0 and is updated with `data[i]`
for `i` in the Rust range `2..length-3`, i.e. the indices
`2, 3, ..., length-4`.  This is the panic-free core; the bounds checks
live in `compute_crc` below. -/
def compute_crc_core (data : List Nat) (length : Nat) : Nat :=
  (List.range' 2 (length - 5)).foldl (fun crc i => crc8_update crc (data.getD i 0)) 0

/-- `ProtocolHandler::compute_crc` with its panic conditions made
explicit: `length - 3` underflows (debug-build panic) when
`length < 3`, and when the range `2..length-3` is non-empty every
index up to `length - 4` is read from `data`, panicking if it falls
outside the buffer. -/
def compute_crc (data : List Nat) (length : Nat) : Option Nat :=
  if length < 3 then none
  else if 5 < length ∧ data.length < length - 3 then none
  else some (compute_crc_core data length)

/-- Big-endian byte splitting of a `u32` value, as the four
`(v >> 24) as u8 … (v & 0xff) as u8` pushes in `write_frame`. -/
def u32_be_bytes (v : Nat) : List Nat :=
  [v / 16777216 % 256, v / 65536 % 256, v / 256 % 256, v % 256]

/-- Big-endian byte splitting of a 16-bit length field, as the
`(length >> 8) as u8` / `(length & 0xff) as u8` pushes in `write_frame`. -/
def u16_be_bytes (v : Nat) : List Nat :=
  [v / 256 % 256, v % 256]

/-- The backfill tail shared by every `write_frame` arm
(`src/protocol.rs`): take the assembled frame with placeholder length
and checksum bytes, store `(data.len() - 6) as u16` big-endian at
indices 2 and 3, then compute the checksum over the updated bytes and
store it at index `data.len() - 3`. -/
def finish_frame (data : List Nat) : List Nat :=
  let data_len := data.length
  let length := (data_len - 6) % 65536
  let d := (data.set 2 (length / 256 % 256)).set 3 (length % 256)
  let crc := compute_crc_core d data_len
  d.set (data_len - 3) crc

/-- `ProtocolHandler::write_frame` (`src/protocol.rs` lines 64-206).
`none` models the three `panic!` guards: `ReadBytes` when
`length > 4096`, `ReadWords` when `length * WORD_SIZE * u8::BITS`
exceeds 4096 (in a debug build the `u32` multiplication overflow for
huge counts also panics, so plain `Nat` arithmetic captures exactly
the panicking inputs), and `Write` when the payload exceeds 4096. -/
def write_frame : SWDCommand → Option (List Nat)
  | .halt =>
    some (finish_frame (HEADER ++ [0x00, 0x00, HALT_COMMAND, 0x00] ++ FOOTER))
  | .resume =>
    some (finish_frame (HEADER ++ [0x00, 0x00, RESUME_COMMAND, 0x00] ++ FOOTER))
  | .readBytes start_address length =>
    if MAX_DATA_LENGTH < length then none
    else some (finish_frame (HEADER ++ [0x00, 0x00, READ_BYTES_COMMAND] ++
      u32_be_bytes start_address ++ u16_be_bytes length ++ [0x00] ++ FOOTER))
  | .readWord start_address =>
    some (finish_frame (HEADER ++ [0x00, 0x00, READ_WORD] ++
      u32_be_bytes start_address ++ [0x00] ++ FOOTER))
  | .readWords start_address length =>
    if MAX_DATA_LENGTH < length * WORD_SIZE * 8 then none
    else some (finish_frame (HEADER ++ [0x00, 0x00, READ_WORDS_COMMAND] ++
      u32_be_bytes start_address ++ u16_be_bytes length ++ [0x00] ++ FOOTER))
  | .write write_address write_data =>
    if MAX_DATA_LENGTH < write_data.length then none
    else some (finish_frame (HEADER ++ [0x00, 0x00, WRITE_COMMAND] ++
      u32_be_bytes write_address ++ write_data ++ [0x00] ++ FOOTER))

/-- `ProtocolHandler::read_frame` (`src/protocol.rs` lines 207-275).
The source computes the frame checksum, compares it against
`data[data.len() - 3]` and does nothing on a mismatch (the rejection
is commented out), then classifies `data[ACK_OFFSET]`.  `none` models
a panic: `compute_crc` on a buffer shorter than 3 bytes, reading the
acknowledgement byte from a buffer shorter than 6 bytes, or slicing a
read-family payload past the end of the buffer. -/
def read_frame (cmd : SWDCommand) (data : List Nat) : Option (Except String (List Nat)) :=
  match compute_crc data data.length with
  | none => none
  | some _crc =>
    -- `if crc != data[data.len() - 3] { }`: empty body, mismatch ignored
    if data.length ≤ ACK_OFFSET then none
    else
      let ack := data.getD ACK_OFFSET 0
      match cmd with
      | .halt =>
        some (if ack = HALT_ACK then .ok [HALT_ACK]
          else if ack = HALT_ERROR then .error "Halt command failed"
          else .error "Unknown response to Halt command")
      | .resume =>
        some (if ack = RESUME_ACK then .ok [RESUME_ACK]
          else if ack = RESUME_ERROR then .error "Halt command failed"
          else .error "Unknown response to Halt command")
      | .readBytes _ data_length =>
        if ack = READ_ACK then
          if ACK_OFFSET + data_length + 1 ≤ data.length then
            some (.ok ((data.drop (ACK_OFFSET + 1)).take data_length))
          else none
        else some (if ack = READ_ERROR then .error "Read command failed"
          else .error "Unknown response to Read command")
      | .readWord _ =>
        if ack = READ_ACK then
          if ACK_OFFSET + 5 ≤ data.length then
            some (.ok ((data.drop (ACK_OFFSET + 1)).take 4))
          else none
        else some (if ack = READ_ERROR then .error "Read command failed"
          else .error "Unknown response to Read command")
      | .readWords _ data_length =>
        if ack = READ_ACK then
          if ACK_OFFSET + data_length + 1 ≤ data.length then
            some (.ok ((data.drop (ACK_OFFSET + 1)).take data_length))
          else none
        else some (if ack = READ_ERROR then .error "Read command failed"
          else .error "Unknown response to Read command")
      | .write _ _ =>
        some (if ack = WRITE_ACK then .ok [WRITE_ACK]
          else if ack = WRITE_ERROR then .error "Write command failed"
          else .error "Unknown response to Write command")

/-! ## Flash model and verifier: `src/elf_reader.rs` -/

/-- The `ByteMismatch` record of `src/elf_reader.rs`. -/
structure ByteMismatch where
  address : Nat
  expected : Nat
  actual : Nat
deriving DecidableEq

/-- One recorded entry of `VerificationResult.errors`.  The source
stores formatted strings; the embedding keeps the fields the two
`format!` calls in `verify_flash` interpolate (the failing address and
the transport error text for a chunk-read failure; the section address
and the two byte counts for a size mismatch). -/
inductive VerifyError where
  | readFail (address : Nat) (msg : String)
  | sizeMismatch (address expected actual : Nat)
deriving DecidableEq

/-- The `VerificationResult` record of `src/elf_reader.rs`; the
`HashMap<u32, Vec<ByteMismatch>>` is rendered as an association list
keyed by section base address. -/
structure VerificationResult where
  success : Bool
  total_sections : Nat
  verified_sections : List Nat
  mismatched_sections : List (Nat × List ByteMismatch)
  errors : List VerifyError
deriving DecidableEq

/-- `VerificationResult::new` (`src/elf_reader.rs` lines 23-32):
`success` starts out `true`. -/
def VerificationResult.new : VerificationResult :=
  { success := true, total_sections := 0, verified_sections := [],
    mismatched_sections := [], errors := [] }

/-- The `FlashSection` record of `src/elf_reader.rs`. -/
structure FlashSection where
  address : Nat
  size : Nat
  data : List Nat
deriving DecidableEq

/-- The fields of a `goblin` ELF section header that
`is_programmable_section` inspects (`sh_flags: u64`, `sh_type: u32`,
`sh_addr: u64` in the source). -/
structure SectionHeader where
  sh_flags : Nat
  sh_type : Nat
  sh_addr : Nat
deriving DecidableEq

/-- ELF-standard constant `SHF_ALLOC` (from the external `goblin` crate). -/
def SHF_ALLOC : Nat := 0x2
/-- ELF-standard constant `SHT_NOBITS` (from the external `goblin` crate). -/
def SHT_NOBITS : Nat := 8

/-- `ElfFlashVerifier::is_programmable_section` (`src/elf_reader.rs`
lines 114-143): allocatable, not `SHT_NOBITS`, and `sh_addr as u32`
inside `[0, 0x20000)` or `[0x41C00000, 0x41C00400)`. -/
def is_programmable_section (h : SectionHeader) : Bool :=
  if h.sh_flags &&& SHF_ALLOC = 0 then false
  else if h.sh_type = SHT_NOBITS then false
  else
    let addr := h.sh_addr % 4294967296
    if 0x00000000 ≤ addr ∧ addr < 0x00020000 then true
    else if 0x41c00000 ≤ addr ∧ addr < 0x41c00400 then true
    else false

/-- `chunk.resize(chunk_size as usize, 0xff)` in `verify_flash`:
truncate a longer chunk, right-pad a shorter one with `0xff`. -/
def chunk_resize (chunk : List Nat) (n : Nat) : List Nat :=
  chunk.take n ++ List.replicate (n - chunk.length) 0xff

/-- The chunk-read loop of `ElfFlashVerifier::verify_flash`
(`src/elf_reader.rs` lines 173-194): while bytes remain, request
`min remaining 4` bytes at the running address; on success append the
resized chunk and continue, on the first read error stop at once and
report the failing address together with the transport error. -/
def read_section_chunks (read_flash : Nat → Nat → Except String (List Nat))
    (current_addr remaining : Nat) (flash_data : List Nat) :
    Except (Nat × String) (List Nat) :=
  if hr : remaining = 0 then .ok flash_data
  else
    let chunk_size := min remaining 4
    match read_flash current_addr chunk_size with
    | .ok chunk =>
      read_section_chunks read_flash (current_addr + chunk_size)
        (remaining - chunk_size) (flash_data ++ chunk_resize chunk chunk_size)
    | .error e => .error (current_addr, e)
termination_by remaining
decreasing_by
  have h1 : 1 ≤ min remaining 4 := by
    have : remaining ≠ 0 := hr
    omega
  omega

/-- The byte-by-byte comparison of `verify_flash` (`src/elf_reader.rs`
lines 210-219): one `ByteMismatch` per differing position of the
zipped expected/actual streams, addressed at `section.address + i`. -/
def byte_mismatches (base : Nat) (expected actual : List Nat) : List ByteMismatch :=
  (expected.zip actual).enum.filterMap fun p =>
    if p.2.1 ≠ p.2.2 then some ⟨base + p.1, p.2.1, p.2.2⟩ else none

/-- `HashMap::insert` on the association-list rendering of
`mismatched_sections`: replace any binding of the key, add the new one. -/
def hashmap_insert (m : List (Nat × List ByteMismatch)) (k : Nat)
    (v : List ByteMismatch) : List (Nat × List ByteMismatch) :=
  m.filter (fun p => p.1 ≠ k) ++ [(k, v)]

/-- The per-section loop of `ElfFlashVerifier::verify_flash`
(`src/elf_reader.rs` lines 165-232).  `Except.error r` models the
early `return Ok(result)` taken when a chunk read fails — it leaves
the loop AND skips the final statistics assignment; `Except.ok r`
is normal loop completion. -/
def verify_sections (read_flash : Nat → Nat → Except String (List Nat)) :
    List FlashSection → VerificationResult →
    Except VerificationResult VerificationResult
  | [], result => .ok result
  | s :: rest, result =>
    match read_section_chunks read_flash s.address s.size [] with
    | .error (addr, e) =>
      .error { result with errors := result.errors ++ [.readFail addr e] }
    | .ok flash_data =>
      if flash_data.length ≠ s.data.length then
        verify_sections read_flash rest
          { result with errors := result.errors ++
              [.sizeMismatch s.address s.data.length flash_data.length] }
      else
        let mismatches := byte_mismatches s.address s.data flash_data
        if mismatches.isEmpty then
          verify_sections read_flash rest
            { result with verified_sections := result.verified_sections ++ [s.address] }
        else
          verify_sections read_flash rest
            { result with mismatched_sections :=
                hashmap_insert result.mismatched_sections s.address mismatches }

/-- `ElfFlashVerifier::verify_flash` (`src/elf_reader.rs` lines
157-239).  On normal completion the trailing statements set
`total_sections` and derive `success`; the early return inside the
chunk loop hands back the accumulated result as-is (in particular
with `success` still holding its initial `true`). -/
def verify_flash (read_flash : Nat → Nat → Except String (List Nat))
    (sections : List FlashSection) : VerificationResult :=
  match verify_sections read_flash sections VerificationResult.new with
  | .error result => result
  | .ok result =>
    { result with total_sections := sections.length,
                  success := result.errors.isEmpty && result.mismatched_sections.isEmpty }

/-- Little-endian byte splitting of a `u32`, as
`section.address.to_le_bytes()` in `calculate_checksum`. -/
def u32_le_bytes (v : Nat) : List Nat :=
  [v % 256, v / 256 % 256, v / 65536 % 256, v / 16777216 % 256]

/-- One bit round of `SerialLoader::software_crc` (`src/loader.rs`
lines 244-264): `mask = (crc & 1).wrapping_neg();`
`crc = (crc >> 1) ^ (CRC32_POLYNOMIAL & mask)` with the reflected
IEEE 802.3 polynomial `0xEDB88320`. -/
def crc32_round (crc : Nat) : Nat :=
  let mask := if crc % 2 = 1 then 0xedb88320 else 0
  (crc / 2) ^^^ mask

/-- One byte step of the 32-bit block checksum: `crc = crc ^ byte`
then 8 bit rounds. -/
def crc32_update (crc byte : Nat) : Nat :=
  crc32_round^[8] (crc ^^^ byte)

/-- The shared 32-bit accumulator loop: seed `0xFFFFFFFF`, feed every
byte, and — unlike textbook CRC-32 — return the accumulator with no
final complement.  This is exactly the loop of
`SerialLoader::software_crc`. -/
def crc32_accum (bytes : List Nat) : Nat :=
  bytes.foldl crc32_update 0xffffffff

/-- `SerialLoader::software_crc` (`src/loader.rs` lines 244-264):
run the accumulator over the first `length` bytes of `data` (the
callers keep `length ≤ data.len()`) and return the little-endian byte
array of the result, with no final complement. -/
def software_crc (data : List Nat) (length : Nat) : List Nat :=
  u32_le_bytes (crc32_accum (data.take length))

/-- The byte stream `ElfFlashVerifier::calculate_checksum` feeds to
its digest: each section's address little-endian, then its data, in
list (= address) order. -/
def checksum_feed (sections : List FlashSection) : List Nat :=
  sections.flatMap fun s => u32_le_bytes s.address ++ s.data

/-- `ElfFlashVerifier::calculate_checksum` (`src/elf_reader.rs` lines
247-257).  Modelled from the spec: the digest engine is the external
`crc` crate (`Crc::<u32>::new(&CRC_32_IEEE)`), whose algorithm is not
part of this repository; §4.1 of the spec fixes it as reflected
CRC-32/IEEE with seed `0xFFFFFFFF`, polynomial `0xEDB88320` and no
final complement — the same accumulator the in-repo
`SerialLoader::software_crc` implements, so `crc32_accum` renders it. -/
def calculate_checksum (sections : List FlashSection) : Nat :=
  crc32_accum (checksum_feed sections)

/-- Textbook CRC-32/IEEE of a byte stream, for comparison: the same
reflected accumulator, with the standard final complement
(`xor 0xFFFFFFFF`) applied. -/
def textbook_crc32 (bytes : List Nat) : Nat :=
  crc32_accum bytes ^^^ 0xffffffff

/-! ## Device session register reads: `src/loader.rs` -/

/-- One transport-level operation issued by a `SerialLoader` register
read: a `write_word(address, value)` exchange or a
`read_words(address, length)` exchange. -/
inductive DebugOp where
  | writeWord (address value : Nat)
  | readWords (address length : Nat)
deriving DecidableEq

/-- The exchange sequence of `SerialLoader::read_pc_register`
(`src/loader.rs` lines 203-219): `write_word(DCRSR_ADDR, PC_REG_INDEX)`
with `DCRSR_ADDR = 0xE000EDF4`, `PC_REG_INDEX = 0x04`, then
`read_words(DCRDR_ADDR, 1)` with `DCRDR_ADDR = 0x00000100`. -/
def read_pc_register_ops : List DebugOp :=
  [.writeWord 0xe000edf4 0x04, .readWords 0x00000100 1]

/-- The exchange sequence of `SerialLoader::read_register(reg_index)`
(`src/loader.rs` lines 222-233): `write_word(0xE000EDF4, reg_index)`
then `read_words(0xE000EDF8, 1)`. -/
def read_register_ops (reg_index : Nat) : List DebugOp :=
  [.writeWord 0xe000edf4 reg_index, .readWords 0xe000edf8 1]

/-- The least response-buffer length at which `read_frame` reaches a
`Result` for a command without panicking: the acknowledgement byte at
offset 5 needs 6 bytes, and the read-family payload slices end at
offset 10 (`ReadWord`) or `6 + data_length` (`ReadBytes`/`ReadWords`,
whose slice takes `data_length` bytes).  A buffer holding a complete
reply frame for the command is at least this long. -/
def reply_min_len : SWDCommand → Nat
  | .halt => 6
  | .resume => 6
  | .readBytes _ data_length => 6 + data_length
  | .readWord _ => 10
  | .readWords _ data_length => 6 + data_length
  | .write _ _ => 6

/-! ## Helper lemmas -/

lemma getD_set_ne (l : List Nat) (i j v d : Nat) (h : i ≠ j) :
    (l.set i v).getD j d = l.getD j d := by
  simp [List.getD_eq_getElem?_getD, List.getElem?_set_ne h]

lemma getD_set_self (l : List Nat) (i v d : Nat) (h : i < l.length) :
    (l.set i v).getD i d = v := by
  simp [List.getD_eq_getElem?_getD, List.getElem?_set_self h]

lemma finish_frame_length (data : List Nat) :
    (finish_frame data).length = data.length := by
  simp [finish_frame]

/-- On any assembled frame of plausible size, the two length-field
bytes backfilled by `finish_frame` recombine to the total frame
length minus 6. -/
lemma finish_frame_len_field (data : List Nat) (h8 : 8 ≤ data.length)
    (hle : data.length ≤ 65541) :
    (finish_frame data).getD 2 0 * 256 + (finish_frame data).getD 3 0 =
      (finish_frame data).length - 6 := by
  have hA : (finish_frame data).getD 2 0 = (data.length - 6) % 65536 / 256 % 256 := by
    simp only [finish_frame]
    rw [getD_set_ne _ _ _ _ _ (by omega : data.length - 3 ≠ 2)]
    rw [getD_set_ne _ _ _ _ _ (by omega : (3 : Nat) ≠ 2)]
    exact getD_set_self _ _ _ _ (by omega)
  have hB : (finish_frame data).getD 3 0 = (data.length - 6) % 65536 % 256 := by
    simp only [finish_frame]
    rw [getD_set_ne _ _ _ _ _ (by omega : data.length - 3 ≠ 3)]
    exact getD_set_self _ _ _ _ (by rw [List.length_set]; omega)
  rw [hA, hB, finish_frame_length]
  omega

/-! ## Claim theorems -/

/-- Claim C2, counterexample: the frame checksum is NOT independent of
the length field.  Two 8-byte buffers that agree everywhere except at
index 3 — the low length-field byte — get different values from
`compute_crc`, because its loop starts at index 2. -/
theorem compute_crc_length_byte_dependence :
    ([0, 0, 0, 0, 0, 0, 0, 0] : List Nat).take 3 = ([0, 0, 0, 1, 0, 0, 0, 0] : List Nat).take 3 ∧
    ([0, 0, 0, 0, 0, 0, 0, 0] : List Nat).drop 4 = ([0, 0, 0, 1, 0, 0, 0, 0] : List Nat).drop 4 ∧
    compute_crc [0, 0, 0, 0, 0, 0, 0, 0] 8 ≠ compute_crc [0, 0, 0, 1, 0, 0, 0, 0] 8 := by
  decide

/-- Claim C2 as amended: the 8-bit frame checksum is a function of
only the bytes at indices `[2, length - 3)` of the buffer — the
2-byte length field, the opcode and the payload.  It excludes the
2-byte header and the trailing checksum and footer bytes, but it does
include the length field, so changing a length-field byte can change
the value `compute_crc` returns. -/
theorem compute_crc_core_span_only (d1 d2 : List Nat) (length : Nat)
    (h : ∀ i, 2 ≤ i → i < length - 3 → d1.getD i 0 = d2.getD i 0) :
    compute_crc_core d1 length = compute_crc_core d2 length := by
  unfold compute_crc_core
  apply List.foldl_ext
  intro crc i hi
  rw [List.mem_range'_1] at hi
  rw [h i hi.1 (by omega)]

/-- Witness for `compute_crc_core_span_only`: two buffers that differ
in the header, checksum and footer positions but agree on indices
2-4 give the same checksum. -/
theorem compute_crc_core_span_only_witness :
    compute_crc_core [1, 1, 0, 0, 0, 7, 7, 7] 8 = compute_crc_core [5, 6, 0, 0, 0, 8, 9, 10] 8 :=
  compute_crc_core_span_only _ _ 8 (by
    intro i h2 h5
    interval_cases i <;> rfl)

/-- Claim C6: `read_pc_register` does NOT perform the exchange of
`read_register 15`.  It writes register index `0x04` (not 15) to the
debug-select address `0xE000EDF4` and then reads from `0x00000100`,
not from the debug-data address `0xE000EDF8` that `read_register`
reads (and that `read_pc_register`'s own comments name). -/
theorem read_pc_register_not_read_register_15 :
    read_pc_register_ops ≠ read_register_ops 15 ∧
    read_pc_register_ops = [.writeWord 0xe000edf4 0x04, .readWords 0x00000100 1] ∧
    read_register_ops 15 = [.writeWord 0xe000edf4 15, .readWords 0xe000edf8 1] := by
  decide

/-- Claim C8: a section is selected for flash verification iff it is
allocatable, not `SHT_NOBITS`, and its load address lies in
`[0, 0x20000)` or `[0x41C00000, 0x41C00400)`; in particular the
spec's four example headers are classified as stated. -/
theorem is_programmable_section_spec :
    (∀ h : SectionHeader, h.sh_addr < 4294967296 →
      (is_programmable_section h = true ↔
        (h.sh_flags &&& SHF_ALLOC ≠ 0 ∧ h.sh_type ≠ SHT_NOBITS ∧
          (h.sh_addr < 0x00020000 ∨
            (0x41c00000 ≤ h.sh_addr ∧ h.sh_addr < 0x41c00400))))) ∧
    is_programmable_section ⟨SHF_ALLOC, 1, 0x00010000⟩ = true ∧
    is_programmable_section ⟨SHF_ALLOC, SHT_NOBITS, 0x00010000⟩ = false ∧
    is_programmable_section ⟨SHF_ALLOC, 1, 0x41c00200⟩ = true ∧
    is_programmable_section ⟨SHF_ALLOC, 1, 0x41c01000⟩ = false := by
  refine ⟨?_, by decide, by decide, by decide, by decide⟩
  intro h hlt
  unfold is_programmable_section
  rw [Nat.mod_eq_of_lt hlt]
  split_ifs <;> simp_all

/-- Witness for `is_programmable_section_spec`: the general
equivalence instantiated at an allocatable `PROGBITS` section loaded
at `0x00010000`. -/
theorem is_programmable_section_spec_witness :
    is_programmable_section ⟨SHF_ALLOC, 1, 0x00010000⟩ = true ↔
      (SHF_ALLOC &&& SHF_ALLOC ≠ 0 ∧ (1 : Nat) ≠ SHT_NOBITS ∧
        ((0x00010000 : Nat) < 0x00020000 ∨
          (0x41c00000 ≤ (0x00010000 : Nat) ∧ (0x00010000 : Nat) < 0x41c00400))) :=
  is_programmable_section_spec.1 ⟨SHF_ALLOC, 1, 0x00010000⟩ (by decide)

/-- Claim C5: the whole-image digest applies no final complement —
over an empty section list `calculate_checksum` returns the bare seed
`0xFFFFFFFF`, and over any non-empty input its value is the bitwise
complement (xor with `0xFFFFFFFF`) of the textbook CRC-32/IEEE of the
same fed bytes. -/
theorem calculate_checksum_no_final_complement :
    calculate_checksum [] = 0xffffffff ∧
    ∀ sections : List FlashSection, sections ≠ [] →
      calculate_checksum sections =
        0xffffffff ^^^ textbook_crc32 (checksum_feed sections) := by
  refine ⟨by decide, ?_⟩
  intro sections _
  unfold calculate_checksum textbook_crc32
  rw [Nat.xor_comm (crc32_accum (checksum_feed sections)) 0xffffffff,
    ← Nat.xor_assoc, Nat.xor_self, Nat.zero_xor]

/-- Witness for `calculate_checksum_no_final_complement`: the
complement relation at a concrete one-section list. -/
theorem calculate_checksum_no_final_complement_witness :
    ([⟨0, 4, [1, 2, 3, 4]⟩] : List FlashSection) ≠ [] ∧
    calculate_checksum [⟨0, 4, [1, 2, 3, 4]⟩] =
      0xffffffff ^^^ textbook_crc32 (checksum_feed [⟨0, 4, [1, 2, 3, 4]⟩]) :=
  ⟨by decide, calculate_checksum_no_final_complement.2 _ (by decide)⟩

/-- Claim C10: encoding a `ReadWords` command panics exactly when
`length * WORD_SIZE * u8::BITS` exceeds 4096, i.e. for every word
count above 128, although the reply payload of `length * 4` bytes
would only exceed the 4096-byte payload ceiling above 1024 words; for
every count at most 128 the encode succeeds. -/
theorem read_words_guard_factor (start_address length : Nat) :
    (write_frame (.readWords start_address length) = none ↔ 4096 < length * 4 * 8) ∧
    (write_frame (.readWords start_address length) = none ↔ 128 < length) ∧
    (4096 < length * 4 ↔ 1024 < length) := by
  have hshape : write_frame (.readWords start_address length) =
      if MAX_DATA_LENGTH < length * WORD_SIZE * 8 then none
      else some (finish_frame (HEADER ++ [0x00, 0x00, READ_WORDS_COMMAND] ++
        u32_be_bytes start_address ++ u16_be_bytes length ++ [0x00] ++ FOOTER)) := rfl
  rw [hshape]
  simp only [MAX_DATA_LENGTH, WORD_SIZE]
  by_cases hc : 4096 < length * 4 * 8
  · rw [if_pos hc]
    refine ⟨⟨fun _ => hc, fun _ => rfl⟩, ⟨fun _ => by omega, fun _ => rfl⟩, by omega⟩
  · rw [if_neg hc]
    refine ⟨⟨fun h => by simp at h, fun h => absurd h hc⟩,
      ⟨fun h => by simp at h, fun h => absurd (by omega : 4096 < length * 4 * 8) hc⟩, by omega⟩

/-- Claim C7: for every command variant whose encoding precondition
holds (so `write_frame` reaches a frame instead of panicking), the
big-endian 16-bit length field at bytes 2-3 of the produced frame
equals the total frame length minus 6 — the span from the opcode
through the checksum byte inclusive. -/
theorem write_frame_length_field (cmd : SWDCommand) (frame : List Nat)
    (h : write_frame cmd = some frame) :
    frame.getD 2 0 * 256 + frame.getD 3 0 = frame.length - 6 := by
  cases cmd with
  | halt =>
    simp only [write_frame, Option.some.injEq] at h
    subst h
    exact finish_frame_len_field _ (by decide) (by decide)
  | resume =>
    simp only [write_frame, Option.some.injEq] at h
    subst h
    exact finish_frame_len_field _ (by decide) (by decide)
  | readBytes start_address length =>
    simp only [write_frame] at h
    by_cases hc : MAX_DATA_LENGTH < length
    · rw [if_pos hc] at h
      exact absurd h (by simp)
    · rw [if_neg hc, Option.some.injEq] at h
      subst h
      have hlen : (HEADER ++ [0x00, 0x00, READ_BYTES_COMMAND] ++
          u32_be_bytes start_address ++ u16_be_bytes length ++ [0x00] ++ FOOTER).length = 14 := by
        simp [HEADER, FOOTER, u32_be_bytes, u16_be_bytes]
      exact finish_frame_len_field _ (by omega) (by omega)
  | readWord start_address =>
    simp only [write_frame, Option.some.injEq] at h
    subst h
    have hlen : (HEADER ++ [0x00, 0x00, READ_WORD] ++
        u32_be_bytes start_address ++ [0x00] ++ FOOTER).length = 12 := by
      simp [HEADER, FOOTER, u32_be_bytes]
    exact finish_frame_len_field _ (by omega) (by omega)
  | readWords start_address length =>
    simp only [write_frame] at h
    by_cases hc : MAX_DATA_LENGTH < length * WORD_SIZE * 8
    · rw [if_pos hc] at h
      exact absurd h (by simp)
    · rw [if_neg hc, Option.some.injEq] at h
      subst h
      have hlen : (HEADER ++ [0x00, 0x00, READ_WORDS_COMMAND] ++
          u32_be_bytes start_address ++ u16_be_bytes length ++ [0x00] ++ FOOTER).length = 14 := by
        simp [HEADER, FOOTER, u32_be_bytes, u16_be_bytes]
      exact finish_frame_len_field _ (by omega) (by omega)
  | write write_address write_data =>
    simp only [write_frame] at h
    by_cases hc : MAX_DATA_LENGTH < write_data.length
    · rw [if_pos hc] at h
      exact absurd h (by simp)
    · rw [if_neg hc, Option.some.injEq] at h
      subst h
      have hlen : (HEADER ++ [0x00, 0x00, WRITE_COMMAND] ++
          u32_be_bytes write_address ++ write_data ++ [0x00] ++ FOOTER).length =
          12 + write_data.length := by
        simp [HEADER, FOOTER, u32_be_bytes]
        omega
      have hmax : write_data.length ≤ 4096 := by
        simpa [MAX_DATA_LENGTH] using hc
      exact finish_frame_len_field _ (by omega) (by omega)

/-- Witness for `write_frame_length_field`: the encoded `Halt` frame
satisfies the length-field invariant. -/
theorem write_frame_length_field_witness :
    (Option.getD (write_frame .halt) []).getD 2 0 * 256 +
      (Option.getD (write_frame .halt) []).getD 3 0 =
      (Option.getD (write_frame .halt) []).length - 6 :=
  write_frame_length_field .halt _ rfl

/-- Claim C9: `read_frame` is partial at the decode interface.  A
5-byte buffer makes the `Halt` decode panic on the acknowledgement
index, and an 8-byte acknowledged reply to `ReadBytes` with requested
length 4 makes the payload slice panic (the buffer is shorter than
6 + 4); on every buffer at least `reply_min_len` long — which any
complete reply frame for the command is — `read_frame` returns a
`Result` instead of panicking. -/
theorem read_frame_partiality :
    read_frame .halt [0, 0, 0, 0, 0] = none ∧
    read_frame (.readBytes 0 4) [0xff, 0xf9, 0x00, 0x08, 0xc6, 0xd2, 0x00, 0x00] = none ∧
    (∀ cmd data, reply_min_len cmd ≤ data.length → (read_frame cmd data).isSome = true) := by
  refine ⟨by decide, by decide, ?_⟩
  intro cmd data hmin
  have h6 : 6 ≤ data.length := by
    cases cmd <;> simp only [reply_min_len] at hmin <;> omega
  have hcrc : compute_crc data data.length = some (compute_crc_core data data.length) := by
    unfold compute_crc
    rw [if_neg (by omega), if_neg (by omega)]
  cases cmd with
  | halt =>
    simp only [read_frame, hcrc, ACK_OFFSET]
    rw [if_neg (by omega)]
    rfl
  | resume =>
    simp only [read_frame, hcrc, ACK_OFFSET]
    rw [if_neg (by omega)]
    rfl
  | readBytes start_address data_length =>
    simp only [reply_min_len] at hmin
    simp only [read_frame, hcrc, ACK_OFFSET]
    rw [if_neg (by omega)]
    by_cases hack : data.getD 5 0 = READ_ACK
    · rw [if_pos hack, if_pos (by omega)]
      rfl
    · rw [if_neg hack]
      rfl
  | readWord start_address =>
    simp only [reply_min_len] at hmin
    simp only [read_frame, hcrc, ACK_OFFSET]
    rw [if_neg (by omega)]
    by_cases hack : data.getD 5 0 = READ_ACK
    · rw [if_pos hack, if_pos (by omega)]
      rfl
    · rw [if_neg hack]
      rfl
  | readWords start_address data_length =>
    simp only [reply_min_len] at hmin
    simp only [read_frame, hcrc, ACK_OFFSET]
    rw [if_neg (by omega)]
    by_cases hack : data.getD 5 0 = READ_ACK
    · rw [if_pos hack, if_pos (by omega)]
      rfl
    · rw [if_neg hack]
      rfl
  | write write_address write_data =>
    simp only [read_frame, hcrc, ACK_OFFSET]
    rw [if_neg (by omega)]
    rfl

/-- Witness for `read_frame_partiality`: a 6-byte buffer is enough
for the `Halt` decode to return a `Result`. -/
theorem read_frame_partiality_witness :
    (read_frame .halt [0, 0, 0, 0, 0, 0]).isSome = true :=
  read_frame_partiality.2.2 .halt [0, 0, 0, 0, 0, 0] (by decide)

set_option maxRecDepth 4000 in
/-- Claim C3 fails on the code: for the `Halt` command and a reply
buffer whose stored checksum byte (third from the end, here `0x00`)
differs from the recomputed checksum, `read_frame` does not return a
failure — the mismatch branch has an empty body (the rejection is
commented out in the source) and the acknowledgement byte `0xD1` is
classified as success. -/
theorem read_frame_accepts_bad_checksum :
    compute_crc [0xff, 0xf9, 0x00, 0x02, 0xc1, 0xd1, 0x00, 0xf5, 0xe7] 9 ≠ some 0x00 ∧
    ([0xff, 0xf9, 0x00, 0x02, 0xc1, 0xd1, 0x00, 0xf5, 0xe7] : List Nat).getD (9 - 3) 0 = 0x00 ∧
    read_frame .halt [0xff, 0xf9, 0x00, 0x02, 0xc1, 0xd1, 0x00, 0xf5, 0xe7] =
      some (.ok [HALT_ACK]) := by
  refine ⟨by decide, by decide, by decide⟩

/-- Claim C1 fails on the code: on the early-return path taken when a
chunk read errors, `verify_flash` hands back the result with
`success` still holding the initial `true` set by
`VerificationResult::new`, even though the errors list is non-empty —
the `success` derivation only runs on normal loop completion.  With a
single section and an always-failing read-back, the returned result
has `success = true` and one recorded error. -/
theorem verify_flash_early_return_success_true :
    (verify_flash (fun _ _ => .error "io error") [⟨0, 4, [1, 2, 3, 4]⟩]).success = true ∧
    (verify_flash (fun _ _ => .error "io error") [⟨0, 4, [1, 2, 3, 4]⟩]).errors =
      [.readFail 0 "io error"] := by
  have h : read_section_chunks (fun _ _ => Except.error "io error") 0 4 [] =
      .error (0, "io error") := by
    rw [read_section_chunks, dif_neg (show ¬(4 = 0) by decide)]
  constructor <;>
    simp [verify_flash, verify_sections, h, VerificationResult.new]

/-- Claim C4: when the chunk-read loop fails at address `addr` with
transport error `e`, the verifier appends exactly one error naming
that address and returns at once — the result does not depend on the
remaining sections `rest`, and its verified and mismatched
collections are exactly those accumulated before the failing section
(so they are empty when the failure is in the first section, as the
second conjunct states for a run started from the fresh result). -/
theorem verify_flash_fail_fast :
    (∀ (read_flash : Nat → Nat → Except String (List Nat)) (s : FlashSection)
        (rest : List FlashSection) (result : VerificationResult) (addr : Nat) (e : String),
        read_section_chunks read_flash s.address s.size [] = .error (addr, e) →
        verify_sections read_flash (s :: rest) result =
          .error { result with errors := result.errors ++ [.readFail addr e] }) ∧
    (∀ (read_flash : Nat → Nat → Except String (List Nat)) (s : FlashSection)
        (rest : List FlashSection) (addr : Nat) (e : String),
        read_section_chunks read_flash s.address s.size [] = .error (addr, e) →
        verify_flash read_flash (s :: rest) =
          { VerificationResult.new with errors := [.readFail addr e] }) := by
  have h1 : ∀ (read_flash : Nat → Nat → Except String (List Nat)) (s : FlashSection)
      (rest : List FlashSection) (result : VerificationResult) (addr : Nat) (e : String),
      read_section_chunks read_flash s.address s.size [] = .error (addr, e) →
      verify_sections read_flash (s :: rest) result =
        .error { result with errors := result.errors ++ [.readFail addr e] } := by
    intro rf s rest result addr e h
    rw [verify_sections, h]
  refine ⟨h1, ?_⟩
  intro rf s rest addr e h
  rw [verify_flash, h1 rf s rest VerificationResult.new addr e h]
  rfl

/-- Witness for `verify_flash_fail_fast`: a first-section failure at
address `0x100` yields exactly one error and empty collections. -/
theorem verify_flash_fail_fast_witness :
    verify_flash (fun _ _ => .error "boom") [⟨0x100, 8, [0, 0, 0, 0, 0, 0, 0, 0]⟩] =
      { VerificationResult.new with errors := [.readFail 0x100 "boom"] } :=
  verify_flash_fail_fast.2 (fun _ _ => .error "boom") ⟨0x100, 8, [0, 0, 0, 0, 0, 0, 0, 0]⟩ []
    0x100 "boom" (by rw [read_section_chunks, dif_neg (show ¬(8 = 0) by decide)])
